import Mathlib

/-!
A shallow embedding of the RBAC decision engine (package `rbac` of the
bohemiyan/RBAC repository) together with proofs about its behaviour.

The database tables of `models.go` become Lean structures held in lists,
the Redis cache becomes an association list of string keys, and each Go
method on the `RBAC` receiver becomes a pure Lean function threading the
state explicitly.  The recursive role-hierarchy walk of
`checkRolePermission` (which recurses on parent pointers with no visited
set in the Go source) is embedded with an explicit fuel parameter: fuel
running out returns `false`, modelling the finite call stack.
-/

namespace RBAC

/-- `models.go`: a department row. -/
structure Department where
  id : Nat
  name : String
  deriving Repr, DecidableEq

/-- `models.go`: a role row; `parentRoleID` links the hierarchy. -/
structure Role where
  id : Nat
  name : String
  departmentID : Nat
  parentRoleID : Option Nat
  isGlobal : Bool
  deriving Repr, DecidableEq

/-- `models.go`: a permission row. -/
structure Permission where
  id : Nat
  name : String
  isGlobal : Bool
  deriving Repr, DecidableEq

/-- `models.go`: an employee-to-role assignment row. -/
structure EmployeeRole where
  employeeID : Nat
  roleID : Nat
  deriving Repr, DecidableEq

/-- `models.go`: a scoped permission grant; `none` in a scope field means
the grant applies regardless of that axis. -/
structure ScopedPermission where
  id : Nat
  roleID : Nat
  permissionID : Nat
  departmentID : Option Nat
  employeeID : Option Nat
  deriving Repr, DecidableEq

/-- `models.go`: an audit log row (fields relevant to the model). -/
structure AuditEntry where
  actorEmpID : Nat
  action : String
  targetType : String
  targetID : Nat
  details : String
  deriving Repr, DecidableEq

/-- The relational store: one list per table of `models.go`, plus the
auto-increment counters GORM keeps for the surrogate-keyed tables. -/
structure DB where
  departments : List Department
  roles : List Role
  permissions : List Permission
  employeeRoles : List EmployeeRole
  scopedPermissions : List ScopedPermission
  audits : List AuditEntry
  nextDeptID : Nat
  nextRoleID : Nat
  nextScopedPermID : Nat
  deriving Repr, DecidableEq

/-- The Redis backend: stored key/value pairs plus the set of keys whose
`Get` currently fails with a non-`redis.Nil` error. -/
structure RedisBackend where
  entries : List (String × String)
  readErrs : List String
  deriving Repr, DecidableEq

/-- The `RBAC` receiver state: the database, the optional Redis client
(`none` models `r.redis == nil`, i.e. caching disabled) and the
configured application name used as the cache-key namespace. -/
structure St where
  db : DB
  redis : Option RedisBackend
  appName : String
  deriving Repr, DecidableEq

/-- `errors.go`: the three error values of the package. -/
inductive Err where
  | invalidInput
  | notFound
  | permissionDenied
  deriving Repr, DecidableEq

/-- `cache.go` `getCacheKey`: `{appName}:perm:{empID}:{permName}` with the
optional scopes appended when present. -/
def getCacheKey (appName : String) (empID : Nat) (permName : String)
    (deptID targetEmpID : Option Nat) : String :=
  let key := appName ++ ":perm:" ++ toString empID ++ ":" ++ permName
  let key := match deptID with
    | some d => key ++ ":" ++ toString d
    | none => key
  match targetEmpID with
  | some t => key ++ ":" ++ toString t
  | none => key

/-- `cache.go` `checkCache`: returns `(allowed, errOccurred)`.  No backend
and `redis.Nil` both yield `(false, no error)`; a read error yields
`(false, error)`; a hit compares the stored value against `"true"`. -/
def checkCache (redis : Option RedisBackend) (key : String) : Bool × Bool :=
  match redis with
  | none => (false, false)
  | some b =>
    if key ∈ b.readErrs then (false, true)
    else
      match b.entries.lookup key with
      | none => (false, false)
      | some v => (v == "true", false)

/-- The string the verdict is stored under in the cache. -/
def boolCacheValue (allowed : Bool) : String :=
  if allowed then "true" else "false"

/-- Replace or insert a key in an association list. -/
def setAssoc (l : List (String × String)) (key v : String) : List (String × String) :=
  match l with
  | [] => [(key, v)]
  | (k, w) :: rest => if k == key then (key, v) :: rest else (k, w) :: setAssoc rest key v

/-- `cache.go` `setCache`: stores the verdict under the composite key; a
missing backend makes it a no-op. -/
def setCache (st : St) (empID : Nat) (permName : String)
    (deptID targetEmpID : Option Nat) (allowed : Bool) : St :=
  match st.redis with
  | none => st
  | some b =>
    let key := getCacheKey st.appName empID permName deptID targetEmpID
    { st with redis := some { b with entries := setAssoc b.entries key (boolCacheValue allowed) } }

/-- `cache.go` `invalidateCache`: deletes every key under the employee's
prefix, or under the whole `perm` namespace when `empID = 0`. -/
def invalidateCache (st : St) (empID : Nat) : St :=
  match st.redis with
  | none => st
  | some b =>
    let pat := if empID == 0 then st.appName ++ ":perm:"
      else st.appName ++ ":perm:" ++ toString empID ++ ":"
    { st with redis := some { b with entries := b.entries.filter (fun kv => !(kv.1.startsWith pat)) } }

/-- Modelled from the spec: `logAudit` (the AuditSink write).  Only its
call sites appear in the sources; per the spec it is a best-effort
append-only record of the action, so it is modelled as appending one
audit row. -/
def logAudit (st : St) (actorID : Nat) (action targetType : String)
    (targetID : Nat) (details : String) : St :=
  { st with db := { st.db with
      audits := st.db.audits ++ [⟨actorID, action, targetType, targetID, details⟩] } }

/-- The row filter of both `ScopedPermission` queries in
`checkRolePermission`: `role_id = ? AND permission_id = ?`. -/
def grantRowMatches (roleID permID : Nat) (sp : ScopedPermission) : Bool :=
  sp.roleID == roleID && sp.permissionID == permID

/-- The department clause of the scoped query: added only when the check
carries a department scope (`department_id = ? OR department_id IS NULL`). -/
def deptCond (deptID : Option Nat) (sp : ScopedPermission) : Bool :=
  match deptID with
  | none => true
  | some d => sp.departmentID == some d || sp.departmentID == none

/-- The employee clause of the scoped query: added only when the check
carries a target-employee scope (`employee_id = ? OR employee_id IS NULL`). -/
def empCond (targetEmpID : Option Nat) (sp : ScopedPermission) : Bool :=
  match targetEmpID with
  | none => true
  | some t => sp.employeeID == some t || sp.employeeID == none

/-- `main.go` `checkRolePermission`: look the role up, take the
`IsGlobal` shortcut (any grant of the permission on the role, scope
ignored), otherwise run the scoped count query, otherwise recurse on the
parent.  The Go recursion carries no fuel and no visited set; `fuel = 0`
returning `false` models exhausting the call stack. -/
def checkRolePermission (db : DB) : Nat → Nat → Nat → Option Nat → Option Nat → Bool
  | 0, _, _, _, _ => false
  | fuel + 1, roleID, permID, deptID, targetEmpID =>
    match db.roles.find? (fun r => r.id == roleID) with
    | none => false
    | some role =>
      if role.isGlobal && db.scopedPermissions.any (fun sp => grantRowMatches roleID permID sp) then
        true
      else if db.scopedPermissions.any (fun sp =>
          grantRowMatches roleID permID sp && deptCond deptID sp && empCond targetEmpID sp) then
        true
      else
        match role.parentRoleID with
        | some p => checkRolePermission db fuel p permID deptID targetEmpID
        | none => false

/-- `main.go` `CheckPermission`: validate inputs, consult the cache
(short-circuiting only when the hit is an Allow with no read error),
load the assignments, resolve the permission name (absence is
`ErrNotFound`), walk each assigned role's ancestor chain, and store the
verdict.  `none` plays the role of the Go `nil` error, i.e. Allow. -/
def CheckPermission (st : St) (fuel : Nat) (empID : Nat) (permName : String)
    (deptID targetEmpID : Option Nat) : Option Err × St :=
  if empID == 0 || permName == "" then (some .invalidInput, st)
  else
    let c := checkCache st.redis (getCacheKey st.appName empID permName deptID targetEmpID)
    if c.2 == false && c.1 == true then (none, st)
    else
      let empRoles := st.db.employeeRoles.filter (fun er => er.employeeID == empID)
      match st.db.permissions.find? (fun p => p.name == permName) with
      | none => (some .notFound, st)
      | some perm =>
        if empRoles.any (fun er => checkRolePermission st.db fuel er.roleID perm.id deptID targetEmpID) then
          (none, setCache st empID permName deptID targetEmpID true)
        else
          (some .permissionDenied, setCache st empID permName deptID targetEmpID false)

/-- The ancestor chain actually reachable by the walk: the role itself,
then its parent, and so on, cut off by the fuel; a role id whose row is
missing ends the chain without being listed. -/
def parentChain (db : DB) : Nat → Nat → List Nat
  | 0, _ => []
  | fuel + 1, roleID =>
    match db.roles.find? (fun r => r.id == roleID) with
    | none => []
    | some role =>
      roleID :: (match role.parentRoleID with
        | some p => parentChain db fuel p
        | none => [])

/-- The list of role ids `checkRolePermission` visits, mirroring its
control flow exactly: the walk stops at a match, at a missing row, at a
missing parent — and otherwise keeps following parent pointers. -/
def checkRoleVisits (db : DB) : Nat → Nat → Nat → Option Nat → Option Nat → List Nat
  | 0, _, _, _, _ => []
  | fuel + 1, roleID, permID, deptID, targetEmpID =>
    match db.roles.find? (fun r => r.id == roleID) with
    | none => [roleID]
    | some role =>
      if role.isGlobal && db.scopedPermissions.any (fun sp => grantRowMatches roleID permID sp) then
        [roleID]
      else if db.scopedPermissions.any (fun sp =>
          grantRowMatches roleID permID sp && deptCond deptID sp && empCond targetEmpID sp) then
        [roleID]
      else
        match role.parentRoleID with
        | some p => roleID :: checkRoleVisits db fuel p permID deptID targetEmpID
        | none => [roleID]

/-- `subordinates.go` `getDescendantRoleIDs`: the role itself followed by
the recursive descendants of every child, again with an explicit fuel
standing in for the unbounded Go recursion. -/
def getDescendantRoleIDs (db : DB) : Nat → Nat → List Nat
  | 0, _ => []
  | fuel + 1, roleID =>
    roleID :: ((db.roles.filter (fun r => r.parentRoleID == some roleID)).flatMap
      (fun r => getDescendantRoleIDs db fuel r.id))

/-- `Validate parent role if provided` in `part_003`: `true` when a
parent id is given but no such role row exists. -/
def parentMissing (db : DB) (parentRoleID : Option Nat) : Bool :=
  match parentRoleID with
  | some p => (db.roles.find? (fun r => r.id == p)).isNone
  | none => false

/-- `Validate department if provided` in `part_009`: `true` when a
department id is given but no such department row exists. -/
def deptMissing (db : DB) (deptID : Option Nat) : Bool :=
  match deptID with
  | some d => (db.departments.find? (fun dep => dep.id == d)).isNone
  | none => false

/-- `part_005` `CreateDepartment`: validate the name, insert the row. -/
def CreateDepartment (st : St) (name : String) : Except Err Department × St :=
  if name == "" then (.error .invalidInput, st)
  else
    let dept : Department := ⟨st.db.nextDeptID, name⟩
    let st := { st with db := { st.db with
      departments := st.db.departments ++ [dept],
      nextDeptID := st.db.nextDeptID + 1 } }
    (.ok dept, logAudit st 0 "create_department" "department" dept.id ("Created department: " ++ name))

/-- `part_003` `CreateRole`: validate the inputs and that the department
and (when given) the parent role exist, then insert the row.  The
referenced parent is only checked for existence — nothing inspects its
ancestor chain. -/
def CreateRole (st : St) (name : String) (deptID : Nat) (parentRoleID : Option Nat)
    (isGlobal : Bool) : Except Err Role × St :=
  if name == "" || deptID == 0 then (.error .invalidInput, st)
  else if (st.db.departments.find? (fun d => d.id == deptID)).isNone then (.error .notFound, st)
  else if parentMissing st.db parentRoleID then (.error .notFound, st)
  else
    let role : Role := ⟨st.db.nextRoleID, name, deptID, parentRoleID, isGlobal⟩
    let st := { st with db := { st.db with
      roles := st.db.roles ++ [role],
      nextRoleID := st.db.nextRoleID + 1 } }
    (.ok role, logAudit st 0 "create_role" "role" role.id ("Created role: " ++ name))

/-- `part_003` `UpdateRole`: validate the inputs, that the role,
department and (when given) parent role exist, then save the updated row
and invalidate the whole permission cache.  Like `CreateRole`, the
proposed parent is only checked for existence. -/
def UpdateRole (st : St) (id : Nat) (name : String) (deptID : Nat)
    (parentRoleID : Option Nat) (isGlobal : Bool) : Except Err Role × St :=
  if id == 0 || name == "" || deptID == 0 then (.error .invalidInput, st)
  else
    match st.db.roles.find? (fun r => r.id == id) with
    | none => (.error .notFound, st)
    | some role =>
      if (st.db.departments.find? (fun d => d.id == deptID)).isNone then (.error .notFound, st)
      else if parentMissing st.db parentRoleID then (.error .notFound, st)
      else
        let updated : Role := { role with
          name := name, departmentID := deptID,
          parentRoleID := parentRoleID, isGlobal := isGlobal }
        let st := { st with db := { st.db with
          roles := st.db.roles.map (fun r => if r.id == id then updated else r) } }
        let st := invalidateCache st 0
        (.ok updated, logAudit st 0 "update_role" "role" updated.id ("Updated role: " ++ name))

/-- `part_010` `AssignRole`: validate the inputs and that the role
exists, insert the assignment, invalidate the employee's cache keys. -/
def AssignRole (st : St) (empID roleID : Nat) : Option Err × St :=
  if empID == 0 || roleID == 0 then (some .invalidInput, st)
  else if (st.db.roles.find? (fun r => r.id == roleID)).isNone then (some .notFound, st)
  else
    let st := { st with db := { st.db with
      employeeRoles := st.db.employeeRoles ++ [⟨empID, roleID⟩] } }
    let st := invalidateCache st empID
    (none, logAudit st empID "assign_role" "employee_role" roleID "Assigned role to employee")

/-- `part_009` `AddScopedPermission`: validate the inputs and that the
role, the permission and (when given) the department exist, insert the
grant, invalidate the whole permission cache. -/
def AddScopedPermission (st : St) (roleID permID : Nat)
    (deptID targetEmpID : Option Nat) : Option Err × St :=
  if roleID == 0 || permID == 0 then (some .invalidInput, st)
  else if (st.db.roles.find? (fun r => r.id == roleID)).isNone then (some .notFound, st)
  else if (st.db.permissions.find? (fun p => p.id == permID)).isNone then (some .notFound, st)
  else if deptMissing st.db deptID then (some .notFound, st)
  else
    let sp : ScopedPermission := ⟨st.db.nextScopedPermID, roleID, permID, deptID, targetEmpID⟩
    let st := { st with db := { st.db with
      scopedPermissions := st.db.scopedPermissions ++ [sp],
      nextScopedPermID := st.db.nextScopedPermID + 1 } }
    let st := invalidateCache st 0
    (none, logAudit st 0 "add_scoped_permission" "scoped_permission" sp.id "Granted permission to role")

/-- `part_000`: one entry of a bulk check request. -/
structure BulkCheck where
  employeeID : Nat
  permission : String
  departmentID : Option Nat
  targetEmployeeID : Option Nat
  deriving Repr, DecidableEq

/-- `part_000`: one entry of a bulk check response. -/
structure BulkResult where
  employeeID : Nat
  permission : String
  allowed : Bool
  error : Option Err
  deriving Repr, DecidableEq

/-- The zero value `make([]BulkPermissionResult, n)` fills the result
slice with before any assignment happens. -/
def zeroBulkResult : BulkResult := ⟨0, "", false, none⟩

/-- The result a worker sends for one job: `CheckPermission` on the
shared state, `Allowed` iff the returned error is nil.  Workers run
concurrently; when no cache backend is configured `CheckPermission`
writes nothing, so each job is a pure function of the shared state and
this sequential map is a faithful determinization. -/
def jobResults (st : St) (fuel : Nat) (checks : List BulkCheck) : List BulkResult :=
  checks.map (fun c =>
    let e := (CheckPermission st fuel c.employeeID c.permission c.departmentID c.targetEmployeeID).1
    ⟨c.employeeID, c.permission, e == none, e⟩)

/-- The collection loop of `CheckBulkPermissions`: each arriving result
is written to the FIRST input index whose (employeeID, permission) pair
matches it (the inner loop breaks at the first match); a result matching
no input is dropped. -/
def collectResults (checks : List BulkCheck) (arrived : List BulkResult) : List BulkResult :=
  arrived.foldl (fun results res =>
    match checks.findIdx? (fun c => c.employeeID == res.employeeID && c.permission == res.permission) with
    | some i => results.set i res
    | none => results) (List.replicate checks.length zeroBulkResult)

/-- `part_000` `CheckBulkPermissions`: fan the checks out, collect the
per-job results from the channel, correlate them back by value.  The
channel's arrival order is abstracted in the theorems by quantifying
over permutations of `jobResults`. -/
def CheckBulkPermissions (st : St) (fuel : Nat) (checks : List BulkCheck) : List BulkResult :=
  collectResults checks (jobResults st fuel checks)

/-- The decision algorithm exactly as §4.3/§4.4 of the specification
words it, for comparison with `checkRolePermission`: only the null/
non-null state of a grant's scope fields is consulted, the role-level
`isGlobal` flag plays no part. -/
def specScopeWalk (db : DB) : Nat → Nat → Nat → Option Nat → Option Nat → Bool
  | 0, _, _, _, _ => false
  | fuel + 1, roleID, permID, deptID, targetEmpID =>
    match db.roles.find? (fun r => r.id == roleID) with
    | none => false
    | some role =>
      if db.scopedPermissions.any (fun sp =>
          grantRowMatches roleID permID sp && deptCond deptID sp && empCond targetEmpID sp) then
        true
      else
        match role.parentRoleID with
        | some p => specScopeWalk db fuel p permID deptID targetEmpID
        | none => false

/-! ### Concrete states used by the theorems -/

/-- The concrete scenario of §8 of the specification: role `Manager` (id 1,
department Sales, no parent) holds a blanket grant for `users.read`
(permission id 1); role `Rep` (id 2) has `Manager` as parent and no direct
grant; employee 7 is assigned to `Rep`. -/
def demoDB : DB :=
  { departments := [⟨1, "Sales"⟩]
    roles := [⟨1, "Manager", 1, none, false⟩, ⟨2, "Rep", 1, some 1, false⟩]
    permissions := [⟨1, "users.read", false⟩, ⟨2, "users.write", false⟩]
    employeeRoles := [⟨7, 2⟩]
    scopedPermissions := [⟨1, 1, 1, none, none⟩]
    audits := []
    nextDeptID := 2
    nextRoleID := 3
    nextScopedPermID := 2 }

/-- The demo database with no cache backend configured. -/
def demoSt : St := ⟨demoDB, none, "rbac"⟩

/-- The demo database with a cache backend that stores a Deny verdict for
employee 7 / `users.read` (unscoped). -/
def cachedDenySt : St :=
  ⟨demoDB, some ⟨[(getCacheKey "rbac" 7 "users.read" none none, "false")], []⟩, "rbac"⟩

/-- The demo database with a cache backend whose read of the employee 7 /
`users.read` key fails. -/
def cacheErrSt : St :=
  ⟨demoDB, some ⟨[], [getCacheKey "rbac" 7 "users.read" none none]⟩, "rbac"⟩

/-- A one-role database parameterised only by the role's `isGlobal` flag:
role 1 (department 5) holds a grant of permission 1 restricted to
department 5, and employee 3 is assigned to role 1. -/
def globalFlagDB (g : Bool) : DB :=
  { departments := [⟨5, "Sales"⟩, ⟨7, "HR"⟩]
    roles := [⟨1, "Manager", 5, none, g⟩]
    permissions := [⟨1, "emp.edit", false⟩]
    employeeRoles := [⟨3, 1⟩]
    scopedPermissions := [⟨1, 1, 1, some 5, none⟩]
    audits := []
    nextDeptID := 8
    nextRoleID := 2
    nextScopedPermID := 2 }

/-- The empty initial state (fresh tables, counters at 1, no cache). -/
def emptySt : St := ⟨⟨[], [], [], [], [], [], 1, 1, 1⟩, none, "rbac"⟩

/-- One department created. -/
def cycleSt1 : St := (CreateDepartment emptySt "Eng").2

/-- Department plus one parentless role `A` (id 1). -/
def cycleSt2 : St := (CreateRole cycleSt1 "A" 1 none false).2

/-- The state after `UpdateRole` re-parents role 1 onto itself. -/
def cycleSt3 : St := (UpdateRole cycleSt2 1 "A" 1 (some 1) false).2

/-! ### Helper lemmas -/

/-- In a database whose role 1 is its own parent and holds no matching
grant, one unit of fuel makes the resolution walk visit role 1 and then
start over. -/
theorem cycle_visits_step (db : DB) (role : Role)
    (hfind : db.roles.find? (fun r => r.id == 1) = some role)
    (hglob : (role.isGlobal && db.scopedPermissions.any (fun sp => grantRowMatches 1 1 sp)) = false)
    (hsc : db.scopedPermissions.any (fun sp =>
      grantRowMatches 1 1 sp && deptCond none sp && empCond none sp) = false)
    (hpar : role.parentRoleID = some 1) :
    ∀ n, checkRoleVisits db (n + 1) 1 1 none none = 1 :: checkRoleVisits db n 1 1 none none := by
  intro n
  simp only [checkRoleVisits, hfind, hglob, hsc, hpar]
  simp

/-- In the same situation the walk of fuel `n` visits exactly `n` roles:
no finite depth bounds it. -/
theorem cycle_visits_length (db : DB) (role : Role)
    (hfind : db.roles.find? (fun r => r.id == 1) = some role)
    (hglob : (role.isGlobal && db.scopedPermissions.any (fun sp => grantRowMatches 1 1 sp)) = false)
    (hsc : db.scopedPermissions.any (fun sp =>
      grantRowMatches 1 1 sp && deptCond none sp && empCond none sp) = false)
    (hpar : role.parentRoleID = some 1) :
    ∀ n, (checkRoleVisits db n 1 1 none none).length = n := by
  intro n
  induction n with
  | zero => rfl
  | succ k ih =>
    rw [cycle_visits_step db role hfind hglob hsc hpar k, List.length_cons, ih]

/-- Unless the cache consult yields an Allow hit, `CheckPermission`
decides by the permission lookup and the hierarchy walk alone: the cache
can then neither block the check nor change its verdict. -/
theorem checkPermission_outcome_of_no_allow_hit (st : St) (fuel empID : Nat)
    (permName : String) (d t : Option Nat)
    (h0 : ¬ empID = 0) (h1 : ¬ permName = "")
    (hc : (checkCache st.redis (getCacheKey st.appName empID permName d t)).1 = false) :
    (CheckPermission st fuel empID permName d t).1 =
      (match st.db.permissions.find? (fun p => p.name == permName) with
       | none => some .notFound
       | some perm =>
         if (st.db.employeeRoles.filter (fun er => er.employeeID == empID)).any
             (fun er => checkRolePermission st.db fuel er.roleID perm.id d t) then none
         else some .permissionDenied) := by
  have hv : (empID == 0 || permName == "") = false := by
    simp [h0, h1]
  simp only [CheckPermission, hv, Bool.false_eq_true, if_false, hc]
  simp only [show (false == true) = false from rfl, Bool.and_false, Bool.false_eq_true, if_false]
  cases hf : st.db.permissions.find? (fun p => p.name == permName) with
  | none => simp only [hf]
  | some perm =>
    simp only [hf]
    split <;> rfl

/-- Whenever the cache consult yields no Allow hit, the verdict is the
one the resolver computes with caching disabled entirely. -/
theorem checkPermission_eq_nocache (st : St) (fuel empID : Nat)
    (permName : String) (d t : Option Nat)
    (hc : (checkCache st.redis (getCacheKey st.appName empID permName d t)).1 = false) :
    (CheckPermission st fuel empID permName d t).1 =
      (CheckPermission ⟨st.db, none, st.appName⟩ fuel empID permName d t).1 := by
  by_cases h0 : empID = 0
  · simp [CheckPermission, h0]
  by_cases h1 : permName = ""
  · simp [CheckPermission, h1]
  rw [checkPermission_outcome_of_no_allow_hit st fuel empID permName d t h0 h1 hc,
    checkPermission_outcome_of_no_allow_hit ⟨st.db, none, st.appName⟩ fuel empID permName d t h0 h1 rfl]

/-- The cache read never reports an Allow together with an error: the
error paths of `checkCache` all carry `allowed = false`. -/
theorem checkCache_err_not_allowed (r : Option RedisBackend) (k : String) :
    (checkCache r k).1 = true → (checkCache r k).2 = false := by
  unfold checkCache
  cases r with
  | none => simp
  | some b =>
    by_cases hm : k ∈ b.readErrs
    · simp [hm]
    · cases hl : b.entries.lookup k <;> simp [hm, hl]

/-- A blanket grant (both scope fields null) attached to any ancestor the
walk can reach forces `checkRolePermission` to succeed, whatever scopes
the check carries. -/
theorem checkRolePermission_of_ancestor_blanket (db : DB) (permID : Nat)
    (d t : Option Nat) (sp : ScopedPermission)
    (hsp : sp ∈ db.scopedPermissions) (hperm : sp.permissionID = permID)
    (hdept : sp.departmentID = none) (hemp : sp.employeeID = none) :
    ∀ fuel r0, sp.roleID ∈ parentChain db fuel r0 →
      checkRolePermission db fuel r0 permID d t = true := by
  intro fuel
  induction fuel with
  | zero =>
    intro r0 h
    simp [parentChain] at h
  | succ n ih =>
    intro r0 hchain
    simp only [parentChain] at hchain
    cases hfind : db.roles.find? (fun r => r.id == r0) with
    | none =>
      rw [hfind] at hchain
      simp at hchain
    | some role =>
      rw [hfind] at hchain
      simp only [List.mem_cons] at hchain
      simp only [checkRolePermission, hfind]
      rcases hchain with heq | hrest
      · have hmatch : db.scopedPermissions.any (fun q =>
            grantRowMatches r0 permID q && deptCond d q && empCond t q) = true := by
          refine List.any_eq_true.mpr ⟨sp, hsp, ?_⟩
          cases d <;> cases t <;>
            simp [grantRowMatches, deptCond, empCond, heq, hperm, hdept, hemp]
        by_cases hg : (role.isGlobal
            && db.scopedPermissions.any (fun q => grantRowMatches r0 permID q)) = true
        · simp [hg]
        · simp [hg, hmatch]
      · cases hpar : role.parentRoleID with
        | none =>
          rw [hpar] at hrest
          simp at hrest
        | some p =>
          rw [hpar] at hrest
          by_cases hg : (role.isGlobal
              && db.scopedPermissions.any (fun q => grantRowMatches r0 permID q)) = true
          · simp [hg]
          · by_cases hs : db.scopedPermissions.any (fun q =>
                grantRowMatches r0 permID q && deptCond d q && empCond t q) = true
            · simp [hg, hs]
            · simp only [hg, hs, Bool.false_eq_true, if_false, hpar]
              exact ih p hrest

/-- A list that is a permutation of a two-element constant list is that
list: duplicate bulk jobs produce the same result whatever order the
workers deliver them in. -/
theorem perm_pair_eq {α : Type} {l : List α} {a : α} (h : l.Perm [a, a]) : l = [a, a] := by
  have hlen : l.length = 2 := by simpa using h.length_eq
  cases l with
  | nil => simp at hlen
  | cons x l1 =>
    cases l1 with
    | nil => simp at hlen
    | cons y l2 =>
      cases l2 with
      | cons z l3 => simp at hlen
      | nil =>
        have hx : x ∈ [a, a] := h.mem_iff.mp (by simp)
        have hy : y ∈ [a, a] := h.mem_iff.mp (by simp)
        simp only [List.mem_cons, List.not_mem_nil, or_false] at hx hy
        simp [hx.elim id id, hy.elim id id]

/-- The walk only consults the role rows and the two grant queries: two
databases agreeing on those agree on every walk outcome. -/
theorem walk_congr (db1 db2 : DB) (d t : Option Nat)
    (hroles : db2.roles = db1.roles)
    (hg : ∀ roleID permID : Nat,
      db2.scopedPermissions.any (fun sp => grantRowMatches roleID permID sp)
        = db1.scopedPermissions.any (fun sp => grantRowMatches roleID permID sp))
    (hs : ∀ roleID permID : Nat,
      db2.scopedPermissions.any (fun sp =>
          grantRowMatches roleID permID sp && deptCond d sp && empCond t sp)
        = db1.scopedPermissions.any (fun sp =>
          grantRowMatches roleID permID sp && deptCond d sp && empCond t sp)) :
    ∀ fuel roleID permID,
      checkRolePermission db2 fuel roleID permID d t
        = checkRolePermission db1 fuel roleID permID d t := by
  intro fuel
  induction fuel with
  | zero => intro _ _; rfl
  | succ n ih => intro roleID permID; simp only [checkRolePermission, hroles, hg, hs, ih]

/-- Statement apparatus: the same state with every grant's department
restriction replaced arbitrarily. -/
def mapGrantDept (st : St) (f : ScopedPermission → Option Nat) : St :=
  { st with db := { st.db with scopedPermissions :=
      st.db.scopedPermissions.map (fun sp => { sp with departmentID := f sp }) } }

/-- Statement apparatus: the same state with every grant's employee
restriction replaced arbitrarily. -/
def mapGrantEmp (st : St) (g : ScopedPermission → Option Nat) : St :=
  { st with db := { st.db with scopedPermissions :=
      st.db.scopedPermissions.map (fun sp => { sp with employeeID := g sp }) } }

/-- With no department scope on the check, the walk never reads any
grant's department field. -/
theorem walk_ignores_dept_field (db : DB) (f : ScopedPermission → Option Nat) :
    ∀ fuel roleID permID (t : Option Nat),
      checkRolePermission
        { db with scopedPermissions :=
            db.scopedPermissions.map (fun sp => { sp with departmentID := f sp }) }
        fuel roleID permID none t
      = checkRolePermission db fuel roleID permID none t := by
  intro fuel roleID permID t
  refine walk_congr db
    { db with scopedPermissions :=
        db.scopedPermissions.map (fun sp => { sp with departmentID := f sp }) }
    none t rfl ?_ ?_ fuel roleID permID
  · intro rid pid
    rw [List.any_map]
    congr 1
  · intro rid pid
    rw [List.any_map]
    congr 1

/-- With no target-employee scope on the check, the walk never reads any
grant's employee field. -/
theorem walk_ignores_emp_field (db : DB) (g : ScopedPermission → Option Nat) :
    ∀ fuel roleID permID (d : Option Nat),
      checkRolePermission
        { db with scopedPermissions :=
            db.scopedPermissions.map (fun sp => { sp with employeeID := g sp }) }
        fuel roleID permID d none
      = checkRolePermission db fuel roleID permID d none := by
  intro fuel roleID permID d
  refine walk_congr db
    { db with scopedPermissions :=
        db.scopedPermissions.map (fun sp => { sp with employeeID := g sp }) }
    d none rfl ?_ ?_ fuel roleID permID
  · intro rid pid
    rw [List.any_map]
    congr 1
  · intro rid pid
    rw [List.any_map]
    congr 1

/-! ### Claim theorems -/

/-- Claim C1 (refuted, code bug): the role writes perform no cycle check at
all.  Starting from the empty state, `CreateDepartment` and `CreateRole`
build role 1, and `UpdateRole` re-parenting role 1 onto itself SUCCEEDS,
storing a role that is its own parent — no `CycleDetected` failure exists
anywhere in the code — so the stored parent chain is not acyclic. -/
theorem updateRole_accepts_self_parent_cycle :
    (CreateDepartment emptySt "Eng").1 = .ok ⟨1, "Eng"⟩
  ∧ (CreateRole cycleSt1 "A" 1 none false).1 = .ok ⟨1, "A", 1, none, false⟩
  ∧ (UpdateRole cycleSt2 1 "A" 1 (some 1) false).1 = .ok ⟨1, "A", 1, some 1, false⟩
  ∧ cycleSt3.db.roles = [⟨1, "A", 1, some 1, false⟩] :=
  ⟨rfl, rfl, rfl, rfl⟩

/-- Claim C7 (refuted, code bug): on the cyclic role graph that the write
operations themselves produce (see `cycleSt3`), the ancestor walk of the
resolver has no depth bound — with fuel `d + 1` it performs `d + 1` visits,
so no bound `d` covers it — and both it and the descendant traversal of
`GetSubordinateIDs` revisit role id 1. -/
theorem roleWalk_unbounded_on_reachable_cycle :
    (UpdateRole cycleSt2 1 "A" 1 (some 1) false).1 = .ok ⟨1, "A", 1, some 1, false⟩
  ∧ (∀ d : Nat, ∃ fuel : Nat, d < (checkRoleVisits cycleSt3.db fuel 1 1 none none).length)
  ∧ ¬ (checkRoleVisits cycleSt3.db 2 1 1 none none).Nodup
  ∧ ¬ (getDescendantRoleIDs cycleSt3.db 2 1).Nodup := by
  refine ⟨rfl, ?_, ?_, ?_⟩
  · intro d
    refine ⟨d + 1, ?_⟩
    rw [cycle_visits_length cycleSt3.db ⟨1, "A", 1, some 1, false⟩ rfl rfl rfl rfl]
    omega
  · decide
  · decide

/-- Claim C2 counterexample: the cache of `cachedDenySt` holds the key of
the check (7, `users.read`, unscoped) with a stored Deny verdict, yet
`CheckPermission` does not return that verdict: it performs the walk and
returns Allow (`none`), because the cache branch short-circuits only on
`err == nil && allowed`. -/
theorem cachedDeny_is_not_honored :
    cachedDenySt.redis = some ⟨[(getCacheKey "rbac" 7 "users.read" none none, "false")], []⟩
  ∧ (CheckPermission cachedDenySt 5 7 "users.read" none none).1 = none
  ∧ (none : Option Err) ≠ some .permissionDenied :=
  ⟨rfl, rfl, by decide⟩

/-- Claim C4 counterexample: two states identical except for role 1's
`isGlobal` flag give different verdicts for the department-scoped check
(employee 3, `emp.edit`, deptScope 7): with the flag the dept-5-scoped
grant is accepted via the global shortcut (Allow); without it the scope
filter rejects it (Deny). -/
theorem isGlobal_changes_the_verdict :
    (CheckPermission ⟨globalFlagDB true, none, "rbac"⟩ 5 3 "emp.edit" (some 7) none).1 = none
  ∧ (CheckPermission ⟨globalFlagDB false, none, "rbac"⟩ 5 3 "emp.edit" (some 7) none).1
      = some .permissionDenied :=
  ⟨rfl, rfl⟩

/-- Claim C3 (refuted, code bug): with the duplicate batch
`[(7, users.read), (7, users.read)]` both workers compute the Allow
result, yet the value-based correlation loop writes both results to
index 0 (the first matching input, `break` at first match): index 1
keeps the zero-value result (employee 0, empty name, not allowed) —
not its own correct outcome.  The last conjunct covers every arrival
order the result channel may exhibit. -/
theorem bulk_duplicate_pair_gets_zero_result :
    CheckBulkPermissions demoSt 5
        [⟨7, "users.read", none, none⟩, ⟨7, "users.read", none, none⟩]
      = [⟨7, "users.read", true, none⟩, zeroBulkResult]
  ∧ zeroBulkResult = ⟨0, "", false, none⟩
  ∧ (∀ arrived : List BulkResult,
      arrived.Perm (jobResults demoSt 5
        [⟨7, "users.read", none, none⟩, ⟨7, "users.read", none, none⟩]) →
      collectResults [⟨7, "users.read", none, none⟩, ⟨7, "users.read", none, none⟩] arrived
        = [⟨7, "users.read", true, none⟩, zeroBulkResult]) := by
  refine ⟨rfl, rfl, ?_⟩
  intro arrived hp
  have hjob : jobResults demoSt 5
      [⟨7, "users.read", none, none⟩, ⟨7, "users.read", none, none⟩]
      = [⟨7, "users.read", true, none⟩, ⟨7, "users.read", true, none⟩] := rfl
  rw [hjob] at hp
  rw [perm_pair_eq hp]
  rfl

/-- Witness for `bulk_duplicate_pair_gets_zero_result` at the in-order
arrival of the two worker results. -/
theorem bulk_duplicate_pair_gets_zero_result_witness :
    collectResults [⟨7, "users.read", none, none⟩, ⟨7, "users.read", none, none⟩]
        [⟨7, "users.read", true, none⟩, ⟨7, "users.read", true, none⟩]
      = [⟨7, "users.read", true, none⟩, zeroBulkResult] :=
  bulk_duplicate_pair_gets_zero_result.2.2
    [⟨7, "users.read", true, none⟩, ⟨7, "users.read", true, none⟩]
    (by rw [show jobResults demoSt 5
        [⟨7, "users.read", none, none⟩, ⟨7, "users.read", none, none⟩]
        = [⟨7, "users.read", true, none⟩, ⟨7, "users.read", true, none⟩] from rfl])

/-- Claim C2 (amended part): with valid inputs and an error-free cache
hit, the stored verdict is returned directly only when it is an Allow
(value `"true"`); a cached Deny (any other stored value) is ignored — the
resolver performs the full hierarchy walk and returns the same verdict it
would return with caching disabled. -/
theorem cached_verdict_semantics (st : St) (fuel empID : Nat)
    (permName : String) (d t : Option Nat) (b : RedisBackend) (v : String)
    (h0 : ¬ empID = 0) (h1 : ¬ permName = "")
    (hb : st.redis = some b)
    (hv : b.entries.lookup (getCacheKey st.appName empID permName d t) = some v)
    (herr : ¬ getCacheKey st.appName empID permName d t ∈ b.readErrs) :
    (v = "true" → (CheckPermission st fuel empID permName d t).1 = none)
  ∧ (¬ v = "true" → (CheckPermission st fuel empID permName d t).1 =
      (CheckPermission ⟨st.db, none, st.appName⟩ fuel empID permName d t).1) := by
  have hc : checkCache st.redis (getCacheKey st.appName empID permName d t) = (v == "true", false) := by
    rw [hb]
    simp [checkCache, herr, hv]
  constructor
  · intro htrue
    have hval : (empID == 0 || permName == "") = false := by simp [h0, h1]
    simp [CheckPermission, hval, hc, htrue]
  · intro hne
    apply checkPermission_eq_nocache
    rw [hc]
    simpa using hne

/-- Witness for `cached_verdict_semantics` at the stored-Deny state of
`cachedDenySt`, selecting the cached-Deny half. -/
theorem cached_verdict_semantics_witness :
    (CheckPermission cachedDenySt 5 7 "users.read" none none).1 =
      (CheckPermission ⟨cachedDenySt.db, none, cachedDenySt.appName⟩ 5 7 "users.read" none none).1 :=
  (cached_verdict_semantics cachedDenySt 5 7 "users.read" none none
    ⟨[(getCacheKey "rbac" 7 "users.read" none none, "false")], []⟩ "false"
    (by decide) (by decide) rfl rfl (by decide)).2 (by decide)

/-- Claim C8 (confirmed): if the cache is unavailable for the check — no
backend configured, the key absent, or the key's read failing — the
verdict equals the one computed with caching disabled: the cache can
neither block nor change the decision.  (A failing cache write cannot
either: the verdict is fixed before `setCache` runs and its error is
discarded.) -/
theorem cache_unavailability_preserves_verdict (st : St) (fuel empID : Nat)
    (permName : String) (d t : Option Nat)
    (h : st.redis = none
      ∨ ∃ b, st.redis = some b
          ∧ (getCacheKey st.appName empID permName d t ∈ b.readErrs
             ∨ b.entries.lookup (getCacheKey st.appName empID permName d t) = none)) :
    (CheckPermission st fuel empID permName d t).1 =
      (CheckPermission ⟨st.db, none, st.appName⟩ fuel empID permName d t).1 := by
  apply checkPermission_eq_nocache
  rcases h with h | ⟨b, hb, h⟩
  · rw [h]; rfl
  · rw [hb]
    rcases h with h | h
    · simp [checkCache, h]
    · by_cases hm : getCacheKey st.appName empID permName d t ∈ b.readErrs
      · simp [checkCache, hm]
      · simp [checkCache, hm, h]

/-- Witness for `cache_unavailability_preserves_verdict` at the
failing-read state of `cacheErrSt`. -/
theorem cache_unavailability_preserves_verdict_witness :
    (CheckPermission cacheErrSt 5 7 "users.read" none none).1 =
      (CheckPermission ⟨cacheErrSt.db, none, cacheErrSt.appName⟩ 5 7 "users.read" none none).1 :=
  cache_unavailability_preserves_verdict cacheErrSt 5 7 "users.read" none none
    (Or.inr ⟨⟨[], [getCacheKey "rbac" 7 "users.read" none none]⟩, rfl, Or.inl (by decide)⟩)

/-- Claim C4 (amended part): for a check carrying no department scope and
no target-employee scope, the source walk coincides with the
specification's null-fields-only rule, so the `isGlobal` flag has no
effect there; on scoped checks the flag does change the verdict (see the
counterexample above). -/
theorem unscoped_walk_eq_specScopeWalk (db : DB) :
    ∀ fuel roleID permID,
      checkRolePermission db fuel roleID permID none none
        = specScopeWalk db fuel roleID permID none none := by
  intro fuel
  induction fuel with
  | zero => intro roleID permID; rfl
  | succ n ih =>
    intro roleID permID
    simp only [checkRolePermission, specScopeWalk]
    cases hfind : db.roles.find? (fun r => r.id == roleID) with
    | none => rfl
    | some role =>
      have hco : (db.scopedPermissions.any (fun sp =>
            grantRowMatches roleID permID sp && deptCond none sp && empCond none sp))
          = db.scopedPermissions.any (fun sp => grantRowMatches roleID permID sp) := by
        simp [deptCond, empCond]
      by_cases hA : db.scopedPermissions.any (fun sp => grantRowMatches roleID permID sp) = true
      · cases hg : role.isGlobal <;> simp [hco, hA, hg]
      · have hA' : db.scopedPermissions.any (fun sp => grantRowMatches roleID permID sp) = false := by
          simpa using hA
        cases hpar : role.parentRoleID with
        | none => simp [hco, hA', hpar]
        | some p => simp [hco, hA', hpar, ih p permID]

/-- Claim C6 counterexample: with valid inputs and a permission name that
resolves to nothing, `CheckPermission` fails with `ErrNotFound` instead of
returning the Deny outcome. -/
theorem unknown_permission_yields_notFound :
    (CheckPermission demoSt 5 7 "nosuch" none none).1 = some .notFound
  ∧ (some Err.notFound : Option Err) ≠ some .permissionDenied :=
  ⟨rfl, by decide⟩

/-- Claim C6 (amended part): with valid inputs, a permission name that
resolves to no permission row, and no cached Allow for the key, the check
fails with `ErrNotFound` — it does not return the Deny outcome. -/
theorem unknown_permission_fails_notFound (st : St) (fuel empID : Nat)
    (permName : String) (d t : Option Nat)
    (h0 : ¬ empID = 0) (h1 : ¬ permName = "")
    (hfind : st.db.permissions.find? (fun p => p.name == permName) = none)
    (hc : (checkCache st.redis (getCacheKey st.appName empID permName d t)).1 = false) :
    (CheckPermission st fuel empID permName d t).1 = some .notFound := by
  rw [checkPermission_outcome_of_no_allow_hit st fuel empID permName d t h0 h1 hc, hfind]

/-- Witness for `unknown_permission_fails_notFound` at the demo state and
the unknown name `nosuch`. -/
theorem unknown_permission_fails_notFound_witness :
    (CheckPermission demoSt 5 7 "nosuch" none none).1 = some .notFound :=
  unknown_permission_fails_notFound demoSt 5 7 "nosuch" none none
    (by decide) (by decide) rfl rfl

/-- Claim C5 (confirmed): if an employee is assigned to a role whose
ancestor chain (as far as the walk reaches it) contains a role `sp.roleID`
holding a blanket grant of the requested permission, then `CheckPermission`
returns Allow (`none`) — each assigned role is walked upward and the first
match anywhere on the chain decides. -/
theorem blanket_grant_on_ancestor_allows (st : St) (fuel empID : Nat)
    (permName : String) (d t : Option Nat) (r0 : Nat)
    (perm : Permission) (sp : ScopedPermission)
    (h0 : ¬ empID = 0) (h1 : ¬ permName = "")
    (hassign : (⟨empID, r0⟩ : EmployeeRole) ∈ st.db.employeeRoles)
    (hfind : st.db.permissions.find? (fun p => p.name == permName) = some perm)
    (hsp : sp ∈ st.db.scopedPermissions) (hperm : sp.permissionID = perm.id)
    (hdept : sp.departmentID = none) (hemp : sp.employeeID = none)
    (hchain : sp.roleID ∈ parentChain st.db fuel r0) :
    (CheckPermission st fuel empID permName d t).1 = none := by
  by_cases hc : (checkCache st.redis (getCacheKey st.appName empID permName d t)).1 = true
  · have h2 := checkCache_err_not_allowed st.redis _ hc
    have hv : (empID == 0 || permName == "") = false := by simp [h0, h1]
    simp [CheckPermission, hv, hc, h2]
  · have hc' : (checkCache st.redis (getCacheKey st.appName empID permName d t)).1 = false := by
      simpa using hc
    rw [checkPermission_outcome_of_no_allow_hit st fuel empID permName d t h0 h1 hc', hfind]
    have hwalk : checkRolePermission st.db fuel r0 perm.id d t = true :=
      checkRolePermission_of_ancestor_blanket st.db perm.id d t sp hsp hperm hdept hemp fuel r0 hchain
    have hany : ((st.db.employeeRoles.filter (fun er => er.employeeID == empID)).any
        (fun er => checkRolePermission st.db fuel er.roleID perm.id d t)) = true := by
      refine List.any_eq_true.mpr ⟨⟨empID, r0⟩, ?_, hwalk⟩
      exact List.mem_filter.mpr ⟨hassign, by simp⟩
    simp [hany]

/-- Witness for `blanket_grant_on_ancestor_allows` at the §8 scenario:
employee 7 holds `Rep` (role 2), whose parent `Manager` (role 1) holds the
blanket `users.read` grant; the check is allowed by inheritance. -/
theorem blanket_grant_on_ancestor_allows_witness :
    (CheckPermission demoSt 5 7 "users.read" none none).1 = none :=
  blanket_grant_on_ancestor_allows demoSt 5 7 "users.read" none none 2
    ⟨1, "users.read", false⟩ ⟨1, 1, 1, none, none⟩
    (by decide) (by decide) (by decide) rfl (by decide) rfl rfl rfl (by decide)

/-- Claim C9 (confirmed): an axis on which the check carries no scope is
not filtered at all — the verdict does not depend on the grants'
department fields when `deptScope = none`, nor on their employee fields
when `targetScope = none`; in particular a grant restricted to a specific
department or employee still matches the unscoped check. -/
theorem unscoped_axis_ignores_grant_scopes (st : St) (fuel empID : Nat)
    (permName : String) (d t : Option Nat) (f g : ScopedPermission → Option Nat) :
    ((CheckPermission (mapGrantDept st f) fuel empID permName none t).1
        = (CheckPermission st fuel empID permName none t).1)
  ∧ ((CheckPermission (mapGrantEmp st g) fuel empID permName d none).1
        = (CheckPermission st fuel empID permName d none).1) := by
  constructor
  · by_cases h0 : empID = 0
    · simp [CheckPermission, h0, mapGrantDept]
    by_cases h1 : permName = ""
    · simp [CheckPermission, h1, mapGrantDept]
    by_cases hc : (checkCache st.redis (getCacheKey st.appName empID permName none t)).1 = true
    · have h2 := checkCache_err_not_allowed st.redis _ hc
      have hv : (empID == 0 || permName == "") = false := by simp [h0, h1]
      simp [CheckPermission, mapGrantDept, hv, hc, h2]
    · have hc' : (checkCache st.redis (getCacheKey st.appName empID permName none t)).1 = false := by
        simpa using hc
      rw [checkPermission_outcome_of_no_allow_hit (mapGrantDept st f) fuel empID permName none t
          h0 h1 hc',
        checkPermission_outcome_of_no_allow_hit st fuel empID permName none t h0 h1 hc']
      show (match st.db.permissions.find? (fun p => p.name == permName) with
        | none => some Err.notFound
        | some perm =>
          if (st.db.employeeRoles.filter (fun er : EmployeeRole => er.employeeID == empID)).any
              (fun er : EmployeeRole =>
                checkRolePermission (mapGrantDept st f).db fuel er.roleID perm.id none t)
            then none
          else some Err.permissionDenied) = _
      simp only [mapGrantDept, walk_ignores_dept_field]
  · by_cases h0 : empID = 0
    · simp [CheckPermission, h0, mapGrantEmp]
    by_cases h1 : permName = ""
    · simp [CheckPermission, h1, mapGrantEmp]
    by_cases hc : (checkCache st.redis (getCacheKey st.appName empID permName d none)).1 = true
    · have h2 := checkCache_err_not_allowed st.redis _ hc
      have hv : (empID == 0 || permName == "") = false := by simp [h0, h1]
      simp [CheckPermission, mapGrantEmp, hv, hc, h2]
    · have hc' : (checkCache st.redis (getCacheKey st.appName empID permName d none)).1 = false := by
        simpa using hc
      rw [checkPermission_outcome_of_no_allow_hit (mapGrantEmp st g) fuel empID permName d none
          h0 h1 hc',
        checkPermission_outcome_of_no_allow_hit st fuel empID permName d none h0 h1 hc']
      show (match st.db.permissions.find? (fun p => p.name == permName) with
        | none => some Err.notFound
        | some perm =>
          if (st.db.employeeRoles.filter (fun er : EmployeeRole => er.employeeID == empID)).any
              (fun er : EmployeeRole =>
                checkRolePermission (mapGrantEmp st g).db fuel er.roleID perm.id d none)
            then none
          else some Err.permissionDenied) = _
      simp only [mapGrantEmp, walk_ignores_emp_field]

/-- Claim C10 (confirmed): the cited mutation operations perform all
their `InvalidInput` and `NotFound` validations before issuing any write:
whenever they return an error, the returned state — database, audit rows
and cache alike — is exactly the input state. -/
theorem mutation_errors_leave_state_unchanged (st : St) (roleID permID : Nat)
    (dI tI : Option Nat) (id deptID : Nat) (name : String) (pr : Option Nat)
    (g : Bool) (empID rid : Nat) (e1 e2 e3 : Err) :
    ((AddScopedPermission st roleID permID dI tI).1 = some e1
      → (AddScopedPermission st roleID permID dI tI).2 = st)
  ∧ ((UpdateRole st id name deptID pr g).1 = .error e2
      → (UpdateRole st id name deptID pr g).2 = st)
  ∧ ((AssignRole st empID rid).1 = some e3
      → (AssignRole st empID rid).2 = st) := by
  refine ⟨?_, ?_, ?_⟩
  · intro h
    unfold AddScopedPermission at h ⊢
    repeat' split at h
    all_goals simp_all
  · intro h
    unfold UpdateRole at h ⊢
    repeat' split at h
    all_goals simp_all
  · intro h
    unfold AssignRole at h ⊢
    repeat' split at h
    all_goals simp_all

/-- Witness for `mutation_errors_leave_state_unchanged` at three concrete
failing calls against the demo state: a zero role id, an unknown role id
99 and a zero employee id. -/
theorem mutation_errors_leave_state_unchanged_witness :
    (AddScopedPermission demoSt 0 1 none none).2 = demoSt
  ∧ (UpdateRole demoSt 99 "x" 1 none false).2 = demoSt
  ∧ (AssignRole demoSt 0 1).2 = demoSt :=
  ⟨(mutation_errors_leave_state_unchanged demoSt 0 1 none none 99 1 "x" none false 0 1
      .invalidInput .notFound .invalidInput).1 rfl,
   (mutation_errors_leave_state_unchanged demoSt 0 1 none none 99 1 "x" none false 0 1
      .invalidInput .notFound .invalidInput).2.1 rfl,
   (mutation_errors_leave_state_unchanged demoSt 0 1 none none 99 1 "x" none false 0 1
      .invalidInput .notFound .invalidInput).2.2 rfl⟩

end RBAC
